import Mathlib

/-!
Shallow embedding of the TissueMAPS viewport and toolbar controller
(`src/app/src/core/viewport/Viewport.ts` and
`src/app/src/viewer/toolui/toolbar/tmToolbar.ts`).

Conventions of the embedding:
* TypeScript numbers are modelled as rationals (`ℚ`); the sizes and
  coordinates involved only undergo exact halving and negation, so this is
  faithful.
* Object identity for layers is modelled by a numeric `id` field together
  with structural equality.
* The OpenLayers engine is external; the map is modelled by the parts the
  viewport code observes and mutates: its render list (`addToMap` /
  `removeFromMap`), its view (`setView`), its DOM size, and a log of the
  `view.fit` calls the viewport issues (the engine performs the actual
  framing change).
* A thrown TypeScript exception is modelled as `Except.error` carrying the
  message together with the state of the viewport at throw time, since the
  mutations performed before the `throw` persist.
-/

/-- A renderable layer.  The source has an abstract `Layer` with the concrete
variant `ChannelLayer` carrying `imageSize` (a `[width, height]` pair); all
other variants are collapsed into `otherLayer`.  The `id` field models
JavaScript object identity. -/
inductive Layer where
  | channelLayer (id : Nat) (imageSize : ℚ × ℚ)
  | otherLayer (id : Nat)
deriving DecidableEq

/-- `layer instanceof ChannelLayer`. -/
def Layer.isChannelLayer : Layer → Bool
  | .channelLayer _ _ => true
  | .otherLayer _ => false

/-- `(<ChannelLayer>layer).imageSize[0]`.  On a non-`ChannelLayer` the cast
would fault at runtime; `addLayer` only reaches this on a `ChannelLayer`,
so the value returned for `otherLayer` is irrelevant junk. -/
def Layer.imageSize0 : Layer → ℚ
  | .channelLayer _ s => s.1
  | .otherLayer _ => 0

/-- `(<ChannelLayer>layer).imageSize[1]` (same caveat as `imageSize0`). -/
def Layer.imageSize1 : Layer → ℚ
  | .channelLayer _ s => s.2
  | .otherLayer _ => 0

/-- The custom planar projection handed to `ol.proj.Projection`. -/
structure Projection where
  code : String
  units : String
  extent : List ℚ
deriving DecidableEq

/-- The `ol.View` configuration built by `Viewport._setView`. -/
structure OlView where
  projection : Projection
  center : ℚ × ℚ
  zoom : ℚ
deriving DecidableEq

/-- A geometry, opaque to the viewport code. -/
structure Geometry where
  gid : Nat
deriving DecidableEq

/-- One invocation of `view.fit(geometry, size, \x7bpadding\x7d)` issued by the
viewport; the engine itself performs the framing change. -/
structure FitCall where
  geometry : Geometry
  size : Option (ℚ × ℚ)
  padding : ℚ × ℚ × ℚ × ℚ
deriving DecidableEq

/-- The observable state of the `ol.Map` owned by the viewport. -/
structure OlMap where
  mapLayers : List Layer
  view : Option OlView
  size : Option (ℚ × ℚ)
  fitCalls : List FitCall
deriving DecidableEq

/-- `new ol.Map(\x7blayers: [], ...\x7d)`: empty render list, no view yet, no
DOM size yet. -/
def OlMap.initial : OlMap :=
  { mapLayers := [], view := none, size := none, fitCalls := [] }

/-- `layer.addToMap(map)`: the engine appends the layer to the render list. -/
def Layer.addToMap (l : Layer) (m : OlMap) : OlMap :=
  { m with mapLayers := m.mapLayers ++ [l] }

/-- `layer.removeFromMap(map)`: the engine removes the layer (by identity,
first occurrence) from the render list. -/
def Layer.removeFromMap (l : Layer) (m : OlMap) : OlMap :=
  { m with mapLayers := m.mapLayers.erase l }

/-- `map.setView(view)`. -/
def OlMap.setView (m : OlMap) (v : OlView) : OlMap :=
  { m with view := some v }

/-- `obj.getVisual().olFeature` wraps a geometry. -/
structure OlFeature where
  geometry : Geometry
deriving DecidableEq

/-- `feat.getGeometry()`. -/
def OlFeature.getGeometry (f : OlFeature) : Geometry := f.geometry

/-- A map object's visual representation. -/
structure Visual where
  olFeature : OlFeature
deriving DecidableEq

/-- A map object (opaque apart from its visual). -/
structure MapObject where
  oid : Nat
  visual : Visual
deriving DecidableEq

/-- `obj.getVisual()`. -/
def MapObject.getVisual (o : MapObject) : Visual := o.visual

/-- The `Viewport` class: the owned map and the owned ordered layer list.
The injected `$q` / `$rootScope` services and the `window['map']` debugging
alias have no bearing on any claim and are omitted. -/
structure Viewport where
  map : OlMap
  layers : List Layer
deriving DecidableEq

/-- The `Viewport` constructor. -/
def Viewport.initial : Viewport :=
  { map := OlMap.initial, layers := [] }

/-- The message of the error thrown for an invalid first layer. -/
def firstLayerErrorMsg : String :=
  "The first layer to be added has to be a ChannelLayer in order to set the view!"

/-- The `ol.View` built inside `Viewport._setView(mapWidth, mapHeight)`:
custom pixel projection with extent `[0, 0, width, height]`, center
`[width / 2, -height / 2]`, zoom `0`. -/
def mkSetViewView (mapWidth mapHeight : ℚ) : OlView :=
  { projection := { code := "tm", units := "pixels",
                    extent := [0, 0, mapWidth, mapHeight] }
    center := (mapWidth / 2, -mapHeight / 2)
    zoom := 0 }

/-- `Viewport._setView(mapWidth, mapHeight)`. -/
def Viewport.setViewOf (vp : Viewport) (mapWidth mapHeight : ℚ) : Viewport :=
  { vp with map := vp.map.setView (mkSetViewView mapWidth mapHeight) }

/-- `Viewport.addLayer(layer)`, in source order: `layer.addToMap(this.map)`
first, then the first-layer `instanceof` check (throwing with the map
already mutated), then `_setView` on the first add, then
`this.layers.push(layer)`. -/
def Viewport.addLayer (vp : Viewport) (l : Layer) : Except (String × Viewport) Viewport :=
  let vp1 : Viewport := { vp with map := l.addToMap vp.map }
  let alreadyHasLayers : Bool := vp1.layers.length != 0
  if !alreadyHasLayers && !l.isChannelLayer then
    .error (firstLayerErrorMsg, vp1)
  else
    let vp2 := if !alreadyHasLayers then vp1.setViewOf l.imageSize0 l.imageSize1 else vp1
    .ok { vp2 with layers := vp2.layers ++ [l] }

/-- JavaScript `Array.prototype.indexOf`: first index of the element, `-1`
when absent. -/
def jsIndexOf : List Layer → Layer → Int
  | [], _ => -1
  | x :: rest, l =>
    if x = l then 0
    else
      let r := jsIndexOf rest l
      if r = -1 then -1 else r + 1

/-- JavaScript `Array.prototype.splice(start, deleteCount)` restricted to
deletion: a negative `start` counts from the end (clamped at `0`), and the
deleted elements are dropped. -/
def jsSpliceRemove (xs : List Layer) (start : Int) (deleteCount : Nat) : List Layer :=
  let len := xs.length
  let actualStart : Nat :=
    if start < 0 then ((len : Int) + start).toNat else min start.toNat len
  xs.take actualStart ++ xs.drop (actualStart + deleteCount)

/-- `Viewport.removeLayer(layer)`: `layer.removeFromMap(this.map)`, then
`this.layers.splice(this.layers.indexOf(layer), 1)`. -/
def Viewport.removeLayer (vp : Viewport) (l : Layer) : Viewport :=
  { vp with
    map := l.removeFromMap vp.map,
    layers := jsSpliceRemove vp.layers (jsIndexOf vp.layers l) 1 }

/-- `Viewport.goToMapObject(obj)`: issues
`map.getView().fit(feat.getGeometry(), map.getSize(), \x7bpadding: [100, 100, 100, 100]\x7d)`. -/
def Viewport.goToMapObject (vp : Viewport) (obj : MapObject) : Viewport :=
  let feat := obj.getVisual.olFeature
  { vp with map := { vp.map with
      fitCalls := vp.map.fitCalls ++
        [{ geometry := feat.getGeometry, size := vp.map.size,
           padding := (100, 100, 100, 100) }] } }

/-- The value `\x7b\x7d` returned by the stubbed `serialize`. -/
inductive SerializeResult where
  | emptyObject
deriving DecidableEq

/-- `Viewport.serialize()`: `return <any>\x7b\x7d` — the whole body besides the
return is commented out, so it returns the empty object and touches no
state. -/
def Viewport.serialize (vp : Viewport) : SerializeResult × Viewport :=
  (.emptyObject, vp)

/- ### Toolbar controller (`tmToolbar.ts`) -/

/-- An opaque tool descriptor. -/
structure Tool where
  tid : Nat
deriving DecidableEq

/-- The `ToolbarCtrl` state: the `tools` list bound for rendering. -/
structure ToolbarCtrl where
  tools : List Tool
deriving DecidableEq

/-- The constructor state, before `$scope.viewer.tools` resolves:
`tools: Tool[] = []`. -/
def ToolbarCtrl.initial : ToolbarCtrl :=
  { tools := [] }

/-- The `.then((tools) => \x7b this.tools = tools \x7d)` continuation run when
the asynchronous tool source resolves. -/
def ToolbarCtrl.resolveTools (c : ToolbarCtrl) (ts : List Tool) : ToolbarCtrl :=
  { c with tools := ts }

/-- The sibling `toolUICtrl`, external to the shown sources, modelled by the
log of toggle requests it receives. -/
structure ToolUICtrl where
  toggleRequests : List Tool
deriving DecidableEq

/-- `toolUICtrl.toggleToolWindow(tool)` as observed at the call boundary:
one toggle request for `tool` is delivered. -/
def ToolUICtrl.toggleToolWindow (ui : ToolUICtrl) (t : Tool) : ToolUICtrl :=
  { ui with toggleRequests := ui.toggleRequests ++ [t] }

/-- `ToolbarCtrl.clickToolTab(tool)`: a pure forwarding call to
`this.$scope.toolUICtrl.toggleToolWindow(tool)`; the controller's own state
is untouched. -/
def ToolbarCtrl.clickToolTab (c : ToolbarCtrl) (ui : ToolUICtrl) (t : Tool) :
    ToolbarCtrl × ToolUICtrl :=
  (c, ui.toggleToolWindow t)

/- ### Claims -/

/-- C1: with an empty owned layer list, `addLayer(layer)` throws the
invalid-first-layer error exactly when `layer` is not a `ChannelLayer`;
with a non-empty owned list, `addLayer` succeeds and appends the layer,
`ChannelLayer` or not. -/
theorem addLayer_first_layer_check (vp : Viewport) (l : Layer) :
    (vp.layers = [] →
      ((∃ vpErr, vp.addLayer l = .error (firstLayerErrorMsg, vpErr)) ↔
        l.isChannelLayer = false)) ∧
    (vp.layers ≠ [] →
      ∃ vp', vp.addLayer l = .ok vp' ∧ vp'.layers = vp.layers ++ [l]) := by
  constructor
  · intro hempty
    cases l with
    | channelLayer i s =>
        simp [Viewport.addLayer, hempty, Layer.isChannelLayer]
    | otherLayer i =>
        simp [Viewport.addLayer, hempty, Layer.isChannelLayer]
  · intro hne
    cases hxs : vp.layers with
    | nil => exact absurd hxs hne
    | cons a rest =>
        refine ⟨{ map := l.addToMap vp.map, layers := vp.layers ++ [l] }, ?_, by rw [hxs]⟩
        simp [Viewport.addLayer, hxs]

/-- C1 witness: at the initial viewport, a non-channel layer is rejected and
a channel layer is accepted; after one channel layer, a non-channel layer is
accepted. -/
theorem addLayer_first_layer_check_witness :
    (∃ vpErr, Viewport.initial.addLayer (Layer.otherLayer 7) =
      .error (firstLayerErrorMsg, vpErr)) ↔
    (Layer.otherLayer 7).isChannelLayer = false :=
  (addLayer_first_layer_check Viewport.initial (Layer.otherLayer 7)).1 rfl

/-- C2: adding a `ChannelLayer` of image size `(w, h)` as the first layer
succeeds and installs a view whose projection has extent `[0, 0, w, h]` in
pixel units, center `(w / 2, -h / 2)`, and zoom level `0`. -/
theorem addLayer_first_channel_sets_view (vp : Viewport) (i : Nat) (w h : ℚ)
    (hempty : vp.layers = []) :
    ∃ vp', vp.addLayer (Layer.channelLayer i (w, h)) = .ok vp' ∧
      vp'.map.view = some
        { projection := { code := "tm", units := "pixels",
                          extent := [0, 0, w, h] },
          center := (w / 2, -h / 2), zoom := 0 } := by
  refine ⟨{ map := ((Layer.channelLayer i (w, h)).addToMap vp.map).setView
              (mkSetViewView w h),
            layers := vp.layers ++ [Layer.channelLayer i (w, h)] }, ?_, ?_⟩
  · simp [Viewport.addLayer, hempty, Layer.isChannelLayer, Viewport.setViewOf,
      Layer.imageSize0, Layer.imageSize1]
  · simp [OlMap.setView, mkSetViewView]

/-- C2 witness: a 640×480 channel layer added to the fresh viewport installs
the expected view. -/
theorem addLayer_first_channel_sets_view_witness :
    ∃ vp', Viewport.initial.addLayer (Layer.channelLayer 0 (640, 480)) = .ok vp' ∧
      vp'.map.view = some
        { projection := { code := "tm", units := "pixels",
                          extent := [0, 0, 640, 480] },
          center := (640 / 2, -480 / 2), zoom := 0 } :=
  addLayer_first_channel_sets_view Viewport.initial 0 640 480 rfl

/-- The concrete channel layer used by the witnesses below. -/
def chanL : Layer := Layer.channelLayer 0 (640, 480)

/-- A reachable viewport holding exactly one (channel) layer, obtained by a
successful first `addLayer` on the fresh viewport. -/
def vpOne : Viewport :=
  (Viewport.initial.addLayer chanL).toOption.getD Viewport.initial

/-- C4: when `addLayer` throws the invalid-first-layer error, the owned
layer list is still empty and the view is untouched, but the layer has
already been attached to the map's render list — the failed add is not
atomic with respect to the map. -/
theorem addLayer_error_not_atomic (vp : Viewport) (l : Layer)
    (hempty : vp.layers = []) (hnc : l.isChannelLayer = false) :
    ∃ vpErr, vp.addLayer l = .error (firstLayerErrorMsg, vpErr) ∧
      vpErr.layers = [] ∧ vpErr.map.view = vp.map.view ∧
      vpErr.map.mapLayers = vp.map.mapLayers ++ [l] := by
  refine ⟨{ map := l.addToMap vp.map, layers := vp.layers }, ?_, hempty, rfl, rfl⟩
  simp [Viewport.addLayer, hempty, hnc]

/-- C4 witness: at the fresh viewport a non-channel layer is attached to the
map's render list even though the add throws. -/
theorem addLayer_error_not_atomic_witness :
    ∃ vpErr, Viewport.initial.addLayer (Layer.otherLayer 3) =
      .error (firstLayerErrorMsg, vpErr) ∧
      vpErr.layers = [] ∧ vpErr.map.view = Viewport.initial.map.view ∧
      vpErr.map.mapLayers = Viewport.initial.map.mapLayers ++ [Layer.otherLayer 3] :=
  addLayer_error_not_atomic Viewport.initial (Layer.otherLayer 3) rfl rfl

/-- C5: with a non-empty owned list, `addLayer` appends and leaves the map's
view untouched; `removeLayer` never touches the view either — the view is
set only at first-layer-add time. -/
theorem addLayer_subsequent_preserves_view (vp : Viewport) (l lr : Layer)
    (hne : vp.layers ≠ []) :
    (∃ vp', vp.addLayer l = .ok vp' ∧ vp'.layers = vp.layers ++ [l] ∧
      vp'.map.view = vp.map.view) ∧
    (vp.removeLayer lr).map.view = vp.map.view := by
  constructor
  · cases hxs : vp.layers with
    | nil => exact absurd hxs hne
    | cons a rest =>
        refine ⟨{ map := l.addToMap vp.map, layers := vp.layers ++ [l] },
          ?_, by rw [hxs], rfl⟩
        simp [Viewport.addLayer, hxs]
  · rfl

/-- C5 witness: on the one-layer viewport, adding a non-channel layer
appends it and preserves the view, and so does removing a layer. -/
theorem addLayer_subsequent_preserves_view_witness :
    vpOne.layers ≠ [] ∧
    ((∃ vp', vpOne.addLayer (Layer.otherLayer 1) = .ok vp' ∧
        vp'.layers = vpOne.layers ++ [Layer.otherLayer 1] ∧
        vp'.map.view = vpOne.map.view) ∧
      (vpOne.removeLayer (Layer.otherLayer 2)).map.view = vpOne.map.view) :=
  ⟨by decide,
   addLayer_subsequent_preserves_view vpOne (Layer.otherLayer 1)
     (Layer.otherLayer 2) (by decide)⟩

/-- C7: `goToMapObject` never changes the owned layer list (and does not
touch the map's render list either); it only issues a framing change. -/
theorem goToMapObject_preserves_layers (vp : Viewport) (obj : MapObject) :
    (vp.goToMapObject obj).layers = vp.layers ∧
    (vp.goToMapObject obj).map.mapLayers = vp.map.mapLayers :=
  ⟨rfl, rfl⟩

/-- C8: `goToMapObject(obj)` issues exactly one `fit` of the current view to
the geometry of the object's visual feature, with the map's size and a
fixed symmetric padding of 100 units on each of the four sides. -/
theorem goToMapObject_fit_padding (vp : Viewport) (obj : MapObject) :
    (vp.goToMapObject obj).map.fitCalls =
      vp.map.fitCalls ++
        [{ geometry := obj.getVisual.olFeature.getGeometry,
           size := vp.map.size, padding := (100, 100, 100, 100) }] :=
  rfl

/-- C9: `serialize()` returns the empty object and leaves the viewport's
state unchanged, regardless of the state. -/
theorem serialize_empty_noop (vp : Viewport) :
    vp.serialize = (SerializeResult.emptyObject, vp) :=
  rfl

/-- C10: before the tool source resolves the toolbar's tools list is empty;
after it resolves with `[A, B]` the stored list is `[A, B]`; and
`clickToolTab A` forwards exactly one toggle request for `A` to the sibling
controller while leaving the toolbar state unchanged. -/
theorem toolbar_tools_and_click (A B : Tool) (ui : ToolUICtrl) :
    ToolbarCtrl.initial.tools = [] ∧
    (ToolbarCtrl.initial.resolveTools [A, B]).tools = [A, B] ∧
    ((ToolbarCtrl.initial.resolveTools [A, B]).clickToolTab ui A).1 =
      ToolbarCtrl.initial.resolveTools [A, B] ∧
    ((ToolbarCtrl.initial.resolveTools [A, B]).clickToolTab ui A).2.toggleRequests =
      ui.toggleRequests ++ [A] :=
  ⟨rfl, rfl, rfl, rfl⟩

/-- `indexOf` returns `-1` exactly when the layer is absent. -/
theorem jsIndexOf_eq_neg_one_of_not_mem (xs : List Layer) (l : Layer)
    (h : l ∉ xs) : jsIndexOf xs l = -1 := by
  induction xs with
  | nil => rfl
  | cons a rest ih =>
      have ha : a ≠ l := fun e => h (e ▸ List.mem_cons_self a rest)
      have hr : l ∉ rest := fun m => h (List.mem_cons_of_mem a m)
      simp [jsIndexOf, ha, ih hr]

/-- `indexOf` of a present layer is nonnegative. -/
theorem jsIndexOf_nonneg_of_mem (xs : List Layer) (l : Layer) (h : l ∈ xs) :
    0 ≤ jsIndexOf xs l := by
  induction xs with
  | nil => cases h
  | cons a rest ih =>
      by_cases hal : a = l
      · simp [jsIndexOf, hal]
      · have hm : l ∈ rest := by
          rcases List.mem_cons.mp h with he | hm
          · exact absurd he.symm hal
          · exact hm
        have h0 := ih hm
        simp only [jsIndexOf, if_neg hal]
        split
        · omega
        · omega

/-- `splice(-1, 1)` drops the last element (and is the identity only on the
empty array). -/
theorem jsSpliceRemove_neg_one (xs : List Layer) :
    jsSpliceRemove xs (-1) 1 = xs.dropLast := by
  unfold jsSpliceRemove
  have hlt : ((-1 : Int) < 0) := by omega
  have h1 : (((xs.length : Int)) + (-1)).toNat = xs.length - 1 := by omega
  simp only [if_pos hlt, h1]
  have h2 : xs.drop (xs.length - 1 + 1) = [] := List.drop_eq_nil_of_le (by omega)
  rw [h2, List.append_nil, List.dropLast_eq_take]

/-- `splice` at a shifted nonnegative index steps through a cons cell. -/
theorem jsSpliceRemove_cons_of_nonneg (a : Layer) (rest : List Layer)
    (r : Int) (hr : 0 ≤ r) :
    jsSpliceRemove (a :: rest) (r + 1) 1 = a :: jsSpliceRemove rest r 1 := by
  unfold jsSpliceRemove
  have h1 : ¬ (r + 1 < 0) := by omega
  have h2 : ¬ (r < 0) := by omega
  simp only [if_neg h1, if_neg h2]
  have h3 : (r + 1).toNat = r.toNat + 1 := by omega
  rw [h3]
  have h4 : min (r.toNat + 1) (a :: rest).length = min r.toNat rest.length + 1 := by
    simp only [List.length_cons]
    omega
  rw [h4]
  simp [List.take_succ_cons, List.drop_succ_cons]

/-- Splicing one element out at `indexOf` of a present layer is `erase`. -/
theorem jsSplice_indexOf_eq_erase (xs : List Layer) (l : Layer) (h : l ∈ xs) :
    jsSpliceRemove xs (jsIndexOf xs l) 1 = xs.erase l := by
  induction xs with
  | nil => cases h
  | cons a rest ih =>
      by_cases hal : a = l
      · subst hal
        simp only [jsIndexOf, if_pos rfl]
        unfold jsSpliceRemove
        simp [List.erase_cons_head]
      · have hm : l ∈ rest := by
          rcases List.mem_cons.mp h with he | hm
          · exact absurd he.symm hal
          · exact hm
        have hnn := jsIndexOf_nonneg_of_mem rest l hm
        have hne : jsIndexOf rest l ≠ -1 := by omega
        simp only [jsIndexOf, if_neg hal, if_neg hne]
        rw [jsSpliceRemove_cons_of_nonneg a rest _ hnn, ih hm]
        simp [List.erase_cons, hal]

/-- C3 counterexample: on a viewport holding one layer, removing an absent
layer is not a no-op — `indexOf` yields `-1` and `splice(-1, 1)` deletes
the last element of the owned list. -/
theorem removeLayer_absent_counterexample :
    Layer.otherLayer 5 ∉ vpOne.layers ∧
    (vpOne.removeLayer (Layer.otherLayer 5)).layers ≠ vpOne.layers := by
  decide

/-- C3 amended: removing a layer that is absent from the owned list drops
the list's last element (so it is unchanged only when already empty). -/
theorem removeLayer_absent_removes_last (vp : Viewport) (l : Layer)
    (h : l ∉ vp.layers) :
    (vp.removeLayer l).layers = vp.layers.dropLast := by
  show jsSpliceRemove vp.layers (jsIndexOf vp.layers l) 1 = vp.layers.dropLast
  rw [jsIndexOf_eq_neg_one_of_not_mem vp.layers l h, jsSpliceRemove_neg_one]

/-- C3 amended witness: on the one-layer viewport, removing an absent layer
leaves the empty list. -/
theorem removeLayer_absent_removes_last_witness :
    Layer.otherLayer 5 ∉ vpOne.layers ∧
    (vpOne.removeLayer (Layer.otherLayer 5)).layers = vpOne.layers.dropLast :=
  ⟨by decide,
   removeLayer_absent_removes_last vpOne (Layer.otherLayer 5) (by decide)⟩

/-- `addLayer` succeeds and appends whenever the owned list is non-empty or
the layer is a `ChannelLayer`. -/
theorem addLayer_ok_layers (vp : Viewport) (l : Layer)
    (hok : vp.layers ≠ [] ∨ l.isChannelLayer = true) :
    ∃ vp', vp.addLayer l = .ok vp' ∧ vp'.layers = vp.layers ++ [l] := by
  cases hxs : vp.layers with
  | nil =>
      have hch : l.isChannelLayer = true := by
        rcases hok with hne | hch
        · exact absurd hxs hne
        · exact hch
      refine ⟨{ map := (l.addToMap vp.map).setView
                  (mkSetViewView l.imageSize0 l.imageSize1),
                layers := vp.layers ++ [l] }, ?_, by rw [hxs]⟩
      simp [Viewport.addLayer, hxs, hch, Viewport.setViewOf, OlMap.setView]
  | cons a rest =>
      refine ⟨{ map := l.addToMap vp.map, layers := vp.layers ++ [l] },
        ?_, by rw [hxs]⟩
      simp [Viewport.addLayer, hxs]

/-- C6: for a layer present exactly once in the owned list, `removeLayer`
followed by `addLayer` (with the intermediate list non-empty, or the layer a
`ChannelLayer`) leaves the layer present exactly once — no duplication. -/
theorem removeLayer_addLayer_no_duplication (vp : Viewport) (l : Layer)
    (h1 : vp.layers.count l = 1)
    (hcond : (vp.removeLayer l).layers ≠ [] ∨ l.isChannelLayer = true) :
    ∃ vp', (vp.removeLayer l).addLayer l = .ok vp' ∧ vp'.layers.count l = 1 := by
  have hmem : l ∈ vp.layers := by
    have h0 : 0 < vp.layers.count l := by omega
    exact List.count_pos_iff.mp h0
  have hlayers : (vp.removeLayer l).layers = vp.layers.erase l :=
    jsSplice_indexOf_eq_erase vp.layers l hmem
  obtain ⟨vp', hok, happ⟩ := addLayer_ok_layers (vp.removeLayer l) l hcond
  refine ⟨vp', hok, ?_⟩
  rw [happ, List.count_append, hlayers, List.count_erase_self, h1]
  simp

/-- C6 witness: on the one-layer viewport, removing and re-adding its single
channel layer leaves it present exactly once. -/
theorem removeLayer_addLayer_no_duplication_witness :
    vpOne.layers.count chanL = 1 ∧
    ∃ vp', (vpOne.removeLayer chanL).addLayer chanL = .ok vp' ∧
      vp'.layers.count chanL = 1 :=
  ⟨by decide,
   removeLayer_addLayer_no_duplication vpOne chanL (by decide)
     (Or.inr (by decide))⟩
